import Mathlib

/-!
Shallow embedding of the `duplosentido` DualSense input-report decoder.

The Rust core is the `From<RawInputReportUSB> for DualSenseState` conversion in
`src/dualsense.rs` together with the raw-code-to-enumeration conversions in
`src/mappings/state.rs`.  The Rust code signals bad input exclusively by
panicking (`assert!`, `unreachable!()`, `unimplemented!()`); there is no
decode-error type anywhere in the crate.  We therefore embed each fallible
Rust function as a Lean function into `Except Panic _`, where `Except.error`
marks exactly the inputs on which the Rust code panics (aborts), and
`Except.ok` carries the value the Rust code returns.  Bytes are `Nat`s
(< 256 for real buffers); machine shifts and bitwise operations are the
corresponding `Nat` operations.
-/

/-- The ways the Rust decoder can abort: a failed `assert!` (with its
message), a reached `unreachable!()` arm, a reached `unimplemented!()`,
or an overflowing shift (shifting an 8-bit value by its full bit width,
which panics when overflow checks are enabled). -/
inductive Panic where
  | assertFailed (msg : String)
  | unreachableCode
  | unimplementedCode
  | shiftOverflow
deriving DecidableEq, Repr

deriving instance DecidableEq for Except

/-- `u8::trailing_zeros` for values below 256: the number of trailing zero
bits, and 8 for the value 0. -/
def u8TrailingZeros (m : Nat) : Nat :=
  if m % 2 = 1 then 0
  else if m / 2 % 2 = 1 then 1
  else if m / 4 % 2 = 1 then 2
  else if m / 8 % 2 = 1 then 3
  else if m / 16 % 2 = 1 then 4
  else if m / 32 % 2 = 1 then 5
  else if m / 64 % 2 = 1 then 6
  else if m / 128 % 2 = 1 then 7
  else 8

/-- The value computed by the Rust closure
`|byte, mask| (byte & mask) >> mask.trailing_zeros()` in
`src/dualsense.rs`. -/
def maskShift (byte mask : Nat) : Nat :=
  (byte &&& mask) >>> u8TrailingZeros mask

/-- The same bitfield primitive with Rust's shift-overflow check made
explicit: for `mask = 0` the shift amount is 8, the full width of the
`u8` operand, so the Rust expression `(byte & mask) >> mask.trailing_zeros()`
is an overflowing shift and panics when overflow checks are enabled. -/
def maskShiftChecked (byte mask : Nat) : Except Panic Nat :=
  if u8TrailingZeros mask < 8 then .ok (maskShift byte mask)
  else .error Panic.shiftOverflow

/-- `u16::from_ne_bytes([lo, hi])` on the little-endian targets the crate
supports. -/
def u16FromNeBytes (lo hi : Nat) : Nat :=
  lo + 256 * hi

/-- `i16::from_ne_bytes([lo, hi])` on the little-endian targets the crate
supports. -/
def i16FromNeBytes (lo hi : Nat) : Int :=
  let u : Nat := lo + 256 * hi
  if u < 32768 then (u : Int) else (u : Int) - 65536

/-- `i8::from_ne_bytes([b])`. -/
def i8FromNeBytes (b : Nat) : Int :=
  if b < 128 then (b : Int) else (b : Int) - 256

/-- The state of a button (`ButtonState` in `src/mappings/state.rs`). -/
inductive ButtonState where
  | Released
  | Pressed
deriving DecidableEq, Repr, Inhabited

/-- The state of a peripheral device (`PluggedState`). -/
inductive PluggedState where
  | Unplugged
  | Plugged
deriving DecidableEq, Repr, Inhabited

/-- The state of a microphone muted status (`MutedState`). -/
inductive MutedState where
  | Unmuted
  | Muted
deriving DecidableEq, Repr, Inhabited

/-- The power state of the controller (`PowerState`). -/
inductive PowerState where
  | Discharging
  | Charging
  | Complete
  | AbnormalVoltage
  | AbnormalTemperature
  | ChargingError
deriving DecidableEq, Repr, Inhabited

/-- Direction of the directional pad (`DPadDirection`). -/
inductive DPadDirection where
  | North
  | NorthEast
  | East
  | SouthEast
  | South
  | SouthWest
  | West
  | NorthWest
  | None
deriving DecidableEq, Repr, Inhabited

/-- The applied effect of a back trigger (`BackTriggerEffect`). -/
inductive BackTriggerEffect where
  | Off
  | Feedback
  | Weapon
  | Vibration
deriving DecidableEq, Repr, Inhabited

/-- The current status of the back trigger effect (`BackTriggerStatus`). -/
inductive BackTriggerStatus where
  | FeedbackNoLoad
  | FeedbackLoadApplied
  | WeaponReady
  | WeaponFiring
  | WeaponFired
  | VibrationNotVibrating
  | VibrationIsVibrating
deriving DecidableEq, Repr, Inhabited

/-- `impl From<u8> for ButtonState`: `assert!(value < 2)` then match with an
`unreachable!()` catch-all. -/
def ButtonState.fromU8 (value : Nat) : Except Panic ButtonState :=
  if value < 2 then
    match value with
    | 0 => .ok ButtonState.Released
    | 1 => .ok ButtonState.Pressed
    | _ => .error Panic.unreachableCode
  else .error (Panic.assertFailed "Out of range for ButtonState")

/-- `impl From<u8> for PluggedState`. -/
def PluggedState.fromU8 (value : Nat) : Except Panic PluggedState :=
  if value < 2 then
    match value with
    | 0 => .ok PluggedState.Unplugged
    | 1 => .ok PluggedState.Plugged
    | _ => .error Panic.unreachableCode
  else .error (Panic.assertFailed "Out of range for PluggedState")

/-- `impl From<u8> for MutedState`. -/
def MutedState.fromU8 (value : Nat) : Except Panic MutedState :=
  if value < 2 then
    match value with
    | 0 => .ok MutedState.Unmuted
    | 1 => .ok MutedState.Muted
    | _ => .error Panic.unreachableCode
  else .error (Panic.assertFailed "Out of range for MutedState")

/-- `impl From<u8> for PowerState`: `assert!(value <= 0x0F)`, a match on the
six documented codes, and an `unreachable!()` catch-all that the other ten
nibble values reach. -/
def PowerState.fromU8 (value : Nat) : Except Panic PowerState :=
  if value ≤ 0x0F then
    match value with
    | 0x00 => .ok PowerState.Discharging
    | 0x01 => .ok PowerState.Charging
    | 0x02 => .ok PowerState.Complete
    | 0x0A => .ok PowerState.AbnormalVoltage
    | 0x0B => .ok PowerState.AbnormalTemperature
    | 0x0F => .ok PowerState.ChargingError
    | _ => .error Panic.unreachableCode
  else .error (Panic.assertFailed "Out of range for PowerState")

/-- `impl From<u8> for DPadDirection`: `assert!(value < 9)` then the nine
directions. -/
def DPadDirection.fromU8 (value : Nat) : Except Panic DPadDirection :=
  if value < 9 then
    match value with
    | 0 => .ok DPadDirection.North
    | 1 => .ok DPadDirection.NorthEast
    | 2 => .ok DPadDirection.East
    | 3 => .ok DPadDirection.SouthEast
    | 4 => .ok DPadDirection.South
    | 5 => .ok DPadDirection.SouthWest
    | 6 => .ok DPadDirection.West
    | 7 => .ok DPadDirection.NorthWest
    | 8 => .ok DPadDirection.None
    | _ => .error Panic.unreachableCode
  else .error (Panic.assertFailed "Out of range for DPadDirection")

/-- `impl From<u8> for BackTriggerEffect`: `assert!(value < 16)` admits the
whole nibble, but only 0..3 are matched; 4..15 reach the `unreachable!()`
arm. -/
def BackTriggerEffect.fromU8 (value : Nat) : Except Panic BackTriggerEffect :=
  if value < 16 then
    match value with
    | 0 => .ok BackTriggerEffect.Off
    | 1 => .ok BackTriggerEffect.Feedback
    | 2 => .ok BackTriggerEffect.Weapon
    | 3 => .ok BackTriggerEffect.Vibration
    | _ => .error Panic.unreachableCode
  else .error (Panic.assertFailed "Out of range for BackTriggerEffect")

/-- `impl From<(u8, BackTriggerEffect)> for BackTriggerStatus`: the joint
conversion first runs `assert!(value < 3)` (before any effect dispatch, so
it also fires for `Off`), then dispatches on the effect with
`unreachable!()` catch-alls. -/
def BackTriggerStatus.fromRaw (value : Nat) (effect : BackTriggerEffect) :
    Except Panic BackTriggerStatus :=
  if value < 3 then
    match effect with
    | BackTriggerEffect.Off => .ok BackTriggerStatus.FeedbackNoLoad
    | BackTriggerEffect.Feedback =>
      match value with
      | 0 => .ok BackTriggerStatus.FeedbackNoLoad
      | 1 => .ok BackTriggerStatus.FeedbackLoadApplied
      | _ => .error Panic.unreachableCode
    | BackTriggerEffect.Weapon =>
      match value with
      | 0 => .ok BackTriggerStatus.WeaponReady
      | 1 => .ok BackTriggerStatus.WeaponFiring
      | 2 => .ok BackTriggerStatus.WeaponFired
      | _ => .error Panic.unreachableCode
    | BackTriggerEffect.Vibration =>
      match value with
      | 0 => .ok BackTriggerStatus.VibrationNotVibrating
      | 1 => .ok BackTriggerStatus.VibrationIsVibrating
      | _ => .error Panic.unreachableCode
  else .error (Panic.assertFailed "Out of range for BackTriggerStatus")

/-- A back trigger axis (`Axis` in `src/mappings/state.rs`). -/
structure Axis where
  val : Nat
deriving DecidableEq, Repr, Inhabited

/-- Coordinates of the analog stick (`StickCoordinates`). -/
structure StickCoordinates where
  x : Nat
  y : Nat
deriving DecidableEq, Repr, Inhabited

/-- The state of the analog stick (`StickState`). -/
structure StickState where
  state : ButtonState
  position : StickCoordinates
deriving DecidableEq, Repr, Inhabited

/-- Angular velocity of the controller (`AngularVelocityState`). -/
structure AngularVelocityState where
  x : Int
  y : Int
  z : Int
deriving DecidableEq, Repr, Inhabited

/-- Acceleration of the controller (`AccelerationState`). -/
structure AccelerationState where
  x : Int
  y : Int
  z : Int
deriving DecidableEq, Repr, Inhabited

/-- Temperature of the controller (`TemperatureState`). -/
inductive TemperatureState where
  | Celsius (t : Int)
  | Fahrenheit (t : Nat)
  | Kelvin (t : Nat)
deriving DecidableEq, Repr, Inhabited

/-- Data of finger movement in the touchpad (`FingerData`). -/
structure FingerData where
  index : Nat
  is_touching : Bool
  x : Nat
  y : Nat
deriving DecidableEq, Repr, Inhabited

/-- The state of the touchpad (`TouchPadState`); the `[FingerData; 2]`
array is a pair. -/
structure TouchPadState where
  state : ButtonState
  finger : FingerData × FingerData
  timestamp : Nat
deriving DecidableEq, Repr, Inhabited

/-- The state of the microphone (`MicrophoneState`). -/
structure MicrophoneState where
  state : PluggedState
  muted : MutedState
  external : Bool
deriving DecidableEq, Repr, Inhabited

/-- The state of the USB (`USBState`). -/
structure USBState where
  data : PluggedState
  power : PluggedState
deriving DecidableEq, Repr, Inhabited

/-- `BackTriggerStop` (a newtype over `u8`). -/
structure BackTriggerStop where
  val : Nat
deriving DecidableEq, Repr, Inhabited

/-- A state of a back trigger (`BackTriggerState`). -/
structure BackTriggerState where
  state : ButtonState
  axis : Axis
  effect : BackTriggerEffect
  status : BackTriggerStatus
  stop : BackTriggerStop
deriving DecidableEq, Repr, Inhabited

/-- A group of the action buttons (`ActionButtonGroup` in
`src/mappings/group.rs`). -/
structure ActionButtonGroup where
  square : ButtonState
  triangle : ButtonState
  circle : ButtonState
  cross : ButtonState
deriving DecidableEq, Repr, Inhabited

/-- A group of the front triggers (`FrontTriggerGroup`). -/
structure FrontTriggerGroup where
  l1 : ButtonState
  r1 : ButtonState
deriving DecidableEq, Repr, Inhabited

/-- A group of the back triggers (`BackTriggerGroup`). -/
structure BackTriggerGroup where
  l2 : BackTriggerState
  r2 : BackTriggerState
deriving DecidableEq, Repr, Inhabited

/-- An analog stick group (`StickGroup`). -/
structure StickGroup where
  left : StickState
  right : StickState
deriving DecidableEq, Repr, Inhabited

/-- A menu button group (`MenuGroup`). -/
structure MenuGroup where
  create : ButtonState
  options : ButtonState
  home : ButtonState
  mute : ButtonState
deriving DecidableEq, Repr, Inhabited

/-- A group of the controller power (`PowerGroup`). -/
structure PowerGroup where
  state : PowerState
  percent : Nat
deriving DecidableEq, Repr, Inhabited

/-- A group of external plugged devices (`PluggedGroup`). -/
structure PluggedGroup where
  headphone : PluggedState
  microphone : MicrophoneState
  usb : USBState
  haptic_low_pass_filter : PluggedState
deriving DecidableEq, Repr, Inhabited

/-- The state of a DualSense controller (`DualSenseState` in
`src/dualsense.rs`). -/
structure DualSenseState where
  sticks : StickGroup
  directional_pad : DPadDirection
  action_buttons : ActionButtonGroup
  menus : MenuGroup
  touchpad : TouchPadState
  front_triggers : FrontTriggerGroup
  back_triggers : BackTriggerGroup
  angular_velocity : AngularVelocityState
  acceleration : AccelerationState
  plugged : PluggedGroup
  temperature : TemperatureState
  power : PowerGroup
deriving DecidableEq, Repr, Inhabited

/-- A raw 64-byte USB input report (`RawInputReportUSB` in
`src/hidapi.rs`), as a function from byte index to byte value. -/
def RawInputReportUSB : Type := Fin 64 → Nat

/-- The `sticks` block of `From<RawInputReportUSB> for DualSenseState`. -/
def decodeSticks (value : RawInputReportUSB) : Except Panic StickGroup := do
  let lstate ← ButtonState.fromU8 (maskShift (value 9) 0x40)
  let lposition : StickCoordinates := { x := value 1, y := value 2 }
  let rstate ← ButtonState.fromU8 (maskShift (value 9) 0x80)
  let rposition : StickCoordinates := { x := value 3, y := value 4 }
  return { left := { state := lstate, position := lposition },
           right := { state := rstate, position := rposition } }

/-- The `directional_pad` block: low nibble of byte 8. -/
def decodeDPad (value : RawInputReportUSB) : Except Panic DPadDirection :=
  DPadDirection.fromU8 (maskShift (value 8) 0x0F)

/-- The `action_buttons` block: high nibble bits of byte 8. -/
def decodeActionButtons (value : RawInputReportUSB) :
    Except Panic ActionButtonGroup := do
  let square ← ButtonState.fromU8 (maskShift (value 8) 0x10)
  let cross ← ButtonState.fromU8 (maskShift (value 8) 0x20)
  let circle ← ButtonState.fromU8 (maskShift (value 8) 0x40)
  let triangle ← ButtonState.fromU8 (maskShift (value 8) 0x80)
  return { square := square, cross := cross, circle := circle,
           triangle := triangle }

/-- The `menus` block: bits of bytes 9 and 10. -/
def decodeMenus (value : RawInputReportUSB) : Except Panic MenuGroup := do
  let create ← ButtonState.fromU8 (maskShift (value 9) 0x10)
  let options ← ButtonState.fromU8 (maskShift (value 9) 0x20)
  let home ← ButtonState.fromU8 (maskShift (value 10) 0x01)
  let mute ← ButtonState.fromU8 (maskShift (value 10) 0x04)
  return { create := create, options := options, home := home, mute := mute }

/-- The `touchpad` block: click bit of byte 10 and the two finger records
at bytes 33..36 and 37..40, plus the timestamp byte 41.  The touching flag
is the negation of the top bit of the finger's first byte. -/
def decodeTouchpad (value : RawInputReportUSB) : Except Panic TouchPadState := do
  let state ← ButtonState.fromU8 (maskShift (value 10) 0x02)
  let one : FingerData :=
    { index := value 33 &&& 0x7F,
      is_touching := maskShift (value 33) 0x80 == 0,
      x := u16FromNeBytes (value 34) (value 35 &&& 0x0F),
      y := u16FromNeBytes (value 35 &&& 0xF0) (value 36) }
  let two : FingerData :=
    { index := value 37 &&& 0x7F,
      is_touching := maskShift (value 37) 0x80 == 0,
      x := u16FromNeBytes (value 38) (value 39 &&& 0x0F),
      y := u16FromNeBytes (value 39 &&& 0xF0) (value 40) }
  return { state := state, finger := (one, two), timestamp := value 41 }

/-- The `front_triggers` block: bits 0 and 1 of byte 9. -/
def decodeFrontTriggers (value : RawInputReportUSB) :
    Except Panic FrontTriggerGroup := do
  let l1 ← ButtonState.fromU8 (maskShift (value 9) 0x01)
  let r1 ← ButtonState.fromU8 (maskShift (value 9) 0x02)
  return { l1 := l1, r1 := r1 }

/-- The `back_triggers` block: digital bits of byte 9, axis bytes 5/6,
effect nibbles of byte 48 and status/stop nibbles of bytes 43 (L2) and
42 (R2). -/
def decodeBackTriggers (value : RawInputReportUSB) :
    Except Panic BackTriggerGroup := do
  let lstate ← ButtonState.fromU8 (maskShift (value 9) 0x04)
  let laxis := Axis.mk (value 5)
  let leffect ← BackTriggerEffect.fromU8 (maskShift (value 48) 0xF0)
  let lstatus ← BackTriggerStatus.fromRaw (maskShift (value 43) 0xF0) leffect
  let lstop := BackTriggerStop.mk (maskShift (value 43) 0xF0)
  let l2 : BackTriggerState :=
    { state := lstate, axis := laxis, effect := leffect, status := lstatus,
      stop := lstop }
  let rstate ← ButtonState.fromU8 (maskShift (value 9) 0x08)
  let raxis := Axis.mk (value 6)
  let reffect ← BackTriggerEffect.fromU8 (maskShift (value 48) 0x0F)
  let rstatus ← BackTriggerStatus.fromRaw (maskShift (value 42) 0xF0) reffect
  let rstop := BackTriggerStop.mk (maskShift (value 42) 0xF0)
  let r2 : BackTriggerState :=
    { state := rstate, axis := raxis, effect := reffect, status := rstatus,
      stop := rstop }
  return { l2 := l2, r2 := r2 }

/-- The `angular_velocity` block: signed 16-bit pairs, x from bytes 16..17,
y from bytes 20..21, z from bytes 18..19 (as in the source). -/
def decodeAngularVelocity (value : RawInputReportUSB) : AngularVelocityState :=
  { x := i16FromNeBytes (value 16) (value 17),
    y := i16FromNeBytes (value 20) (value 21),
    z := i16FromNeBytes (value 18) (value 19) }

/-- The `acceleration` block: signed 16-bit pairs from bytes 22..27. -/
def decodeAcceleration (value : RawInputReportUSB) : AccelerationState :=
  { x := i16FromNeBytes (value 22) (value 23),
    y := i16FromNeBytes (value 24) (value 25),
    z := i16FromNeBytes (value 26) (value 27) }

/-- The `plugged` block: bits of bytes 54 and 55. -/
def decodePlugged (value : RawInputReportUSB) : Except Panic PluggedGroup := do
  let headphone ← PluggedState.fromU8 (maskShift (value 54) 0x01)
  let micState ← PluggedState.fromU8 (maskShift (value 54) 0x02)
  let micMuted ← MutedState.fromU8 (maskShift (value 54) 0x04)
  let micExternal := maskShift (value 55) 0x01 != 0
  let microphone : MicrophoneState :=
    { state := micState, muted := micMuted, external := micExternal }
  let usbData ← PluggedState.fromU8 (maskShift (value 54) 0x08)
  let usbPower ← PluggedState.fromU8 (maskShift (value 54) 0x10)
  let usb : USBState := { data := usbData, power := usbPower }
  let haptic ← PluggedState.fromU8 (maskShift (value 55) 0x02)
  return { headphone := headphone, microphone := microphone, usb := usb,
           haptic_low_pass_filter := haptic }

/-- The `power` block: high nibble of byte 53 is the power state, low
nibble the percent. -/
def decodePower (value : RawInputReportUSB) : Except Panic PowerGroup := do
  let state ← PowerState.fromU8 (maskShift (value 53) 0xF0)
  let percent := maskShift (value 53) 0x0F
  return { state := state, percent := percent }

/-- The body of `From<RawInputReportUSB> for DualSenseState`, after the
header assertion: the single pass over all blocks. -/
def decodeBody (value : RawInputReportUSB) : Except Panic DualSenseState := do
  let sticks ← decodeSticks value
  let directional_pad ← decodeDPad value
  let action_buttons ← decodeActionButtons value
  let menus ← decodeMenus value
  let touchpad ← decodeTouchpad value
  let front_triggers ← decodeFrontTriggers value
  let back_triggers ← decodeBackTriggers value
  let angular_velocity := decodeAngularVelocity value
  let acceleration := decodeAcceleration value
  let plugged ← decodePlugged value
  let temperature := TemperatureState.Celsius (i8FromNeBytes (value 32))
  let power ← decodePower value
  return { sticks := sticks, directional_pad := directional_pad,
           action_buttons := action_buttons, menus := menus,
           touchpad := touchpad, front_triggers := front_triggers,
           back_triggers := back_triggers,
           angular_velocity := angular_velocity,
           acceleration := acceleration, plugged := plugged,
           temperature := temperature, power := power }

/-- `From<RawInputReportUSB> for DualSenseState`: the report-type assertion
`assert!(value[0] == 1 || value[0] == 0)` followed by the decode body. -/
def decode (value : RawInputReportUSB) : Except Panic DualSenseState :=
  if value 0 = 1 ∨ value 0 = 0 then decodeBody value
  else .error (Panic.assertFailed "Report must be either of type 1 or empty")

/-- `DualSense::update`, with the device read modeled by its outcome: the
number of bytes read and the filled buffer.  A zero-byte read returns
without touching the state; a read of any other size than 64 trips
`assert!(bytes == 64, ...)`; a header byte other than `0x01` reaches
`unimplemented!()`; otherwise the buffer is decoded and replaces the
state. -/
def update (bytes : Nat) (buffer : RawInputReportUSB)
    (state : DualSenseState) : Except Panic (DualSenseState × Nat) :=
  if bytes = 0 then .ok (state, bytes)
  else if bytes = 64 then
    if buffer 0 = 0x01 then
      match decode buffer with
      | .ok s => .ok (s, bytes)
      | .error p => .error p
    else .error Panic.unimplementedCode
  else .error (Panic.assertFailed "Only one type of report is currently implemented")

/-- The all-zero report buffer. -/
def zeroBuf : RawInputReportUSB := fun _ => 0

/-- Extract the decoded state, with a fallback for the panic case. -/
def decodeOr (buffer : RawInputReportUSB) (d : DualSenseState) :
    DualSenseState :=
  match decode buffer with
  | .ok s => s
  | .error _ => d

/-- The effect encoded by an in-domain raw nibble. -/
def effectPure (r : Nat) : BackTriggerEffect :=
  match r with
  | 0 => BackTriggerEffect.Off
  | 1 => BackTriggerEffect.Feedback
  | 2 => BackTriggerEffect.Weapon
  | _ => BackTriggerEffect.Vibration

/-- The raw status codes the joint conversion accepts for the effect with
raw code `r`: the leading `assert!(value < 3)` in all cases, and the
narrower `{0, 1}` domains of `Feedback` and `Vibration`. -/
def statusInDomain (s r : Nat) : Prop :=
  s < 3 ∧ (r = 1 → s < 2) ∧ (r = 3 → s < 2)

instance (s r : Nat) : Decidable (statusInDomain s r) := by
  unfold statusInDomain; infer_instance

/-- The raw codes of a buffer are all inside the domains of their closed
enumerations, and the header byte passes the report-type assertion. -/
def InDomain (v : RawInputReportUSB) : Prop :=
  (v 0 = 1 ∨ v 0 = 0) ∧
  maskShift (v 8) 0x0F < 9 ∧
  (maskShift (v 53) 0xF0 = 0x00 ∨ maskShift (v 53) 0xF0 = 0x01 ∨
    maskShift (v 53) 0xF0 = 0x02 ∨ maskShift (v 53) 0xF0 = 0x0A ∨
    maskShift (v 53) 0xF0 = 0x0B ∨ maskShift (v 53) 0xF0 = 0x0F) ∧
  maskShift (v 48) 0xF0 < 4 ∧ maskShift (v 48) 0x0F < 4 ∧
  statusInDomain (maskShift (v 43) 0xF0) (maskShift (v 48) 0xF0) ∧
  statusInDomain (maskShift (v 42) 0xF0) (maskShift (v 48) 0x0F)

instance (v : RawInputReportUSB) : Decidable (InDomain v) := by
  unfold InDomain; infer_instance

/-- A buffer whose d-pad nibble carries the out-of-domain raw code 9. -/
def dpad9Buf : RawInputReportUSB := fun i => if i = 8 then 9 else 0

/-- A buffer whose report-type byte is the unsupported value 2. -/
def headerBuf : RawInputReportUSB := fun i => if i = 0 then 2 else 0

/-- A buffer carrying `[0x10, 0x00]` at the gyroscope-X offset. -/
def gyroPosBuf : RawInputReportUSB := fun i => if i = 16 then 0x10 else 0

/-- A buffer carrying `[0xFF, 0xFF]` at the gyroscope-X offset. -/
def gyroNegBuf : RawInputReportUSB :=
  fun i => if i = 16 then 0xFF else if i = 17 then 0xFF else 0

/-- The button state carried by a single extracted bit. -/
def bitButton (r : Nat) : ButtonState :=
  if r = 0 then ButtonState.Released else ButtonState.Pressed

/-- The plugged state carried by a single extracted bit. -/
def bitPlugged (r : Nat) : PluggedState :=
  if r = 0 then PluggedState.Unplugged else PluggedState.Plugged

/-- The muted state carried by a single extracted bit. -/
def bitMuted (r : Nat) : MutedState :=
  if r = 0 then MutedState.Unmuted else MutedState.Muted

/-- The stick group as a pure function of the buffer. -/
def sticksPure (v : RawInputReportUSB) : StickGroup :=
  { left := { state := bitButton (maskShift (v 9) 0x40),
              position := { x := v 1, y := v 2 } },
    right := { state := bitButton (maskShift (v 9) 0x80),
               position := { x := v 3, y := v 4 } } }

/-- The action-button group as a pure function of the buffer. -/
def actionPure (v : RawInputReportUSB) : ActionButtonGroup :=
  { square := bitButton (maskShift (v 8) 0x10),
    cross := bitButton (maskShift (v 8) 0x20),
    circle := bitButton (maskShift (v 8) 0x40),
    triangle := bitButton (maskShift (v 8) 0x80) }

/-- The menu group as a pure function of the buffer. -/
def menusPure (v : RawInputReportUSB) : MenuGroup :=
  { create := bitButton (maskShift (v 9) 0x10),
    options := bitButton (maskShift (v 9) 0x20),
    home := bitButton (maskShift (v 10) 0x01),
    mute := bitButton (maskShift (v 10) 0x04) }

/-- The touchpad state as a pure function of the buffer. -/
def touchpadPure (v : RawInputReportUSB) : TouchPadState :=
  { state := bitButton (maskShift (v 10) 0x02),
    finger :=
      ({ index := v 33 &&& 0x7F,
         is_touching := maskShift (v 33) 0x80 == 0,
         x := u16FromNeBytes (v 34) (v 35 &&& 0x0F),
         y := u16FromNeBytes (v 35 &&& 0xF0) (v 36) },
       { index := v 37 &&& 0x7F,
         is_touching := maskShift (v 37) 0x80 == 0,
         x := u16FromNeBytes (v 38) (v 39 &&& 0x0F),
         y := u16FromNeBytes (v 39 &&& 0xF0) (v 40) }),
    timestamp := v 41 }

/-- The front-trigger group as a pure function of the buffer. -/
def frontPure (v : RawInputReportUSB) : FrontTriggerGroup :=
  { l1 := bitButton (maskShift (v 9) 0x01),
    r1 := bitButton (maskShift (v 9) 0x02) }

/-- The plugged group as a pure function of the buffer. -/
def pluggedPure (v : RawInputReportUSB) : PluggedGroup :=
  { headphone := bitPlugged (maskShift (v 54) 0x01),
    microphone := { state := bitPlugged (maskShift (v 54) 0x02),
                    muted := bitMuted (maskShift (v 54) 0x04),
                    external := maskShift (v 55) 0x01 != 0 },
    usb := { data := bitPlugged (maskShift (v 54) 0x08),
             power := bitPlugged (maskShift (v 54) 0x10) },
    haptic_low_pass_filter := bitPlugged (maskShift (v 55) 0x02) }

lemma bind_ok_eq {ε α β : Type} (a : α) (f : α → Except ε β) :
    (Bind.bind (Except.ok a) f : Except ε β) = f a := rfl

lemma pure_eq_ok {ε α : Type} (a : α) :
    (Pure.pure a : Except ε α) = Except.ok a := rfl

lemma u8TrailingZeros_pow (k : Nat) (hk : k < 8) :
    u8TrailingZeros (2 ^ k) = k := by
  interval_cases k <;> decide

lemma maskShift_bit_lt_two (b m k : Nat) (hm : m = 2 ^ k) (hk : k < 8) :
    maskShift b m < 2 := by
  subst hm
  unfold maskShift
  rw [u8TrailingZeros_pow k hk, Nat.shiftRight_eq_div_pow]
  have h1 : b &&& 2 ^ k ≤ 2 ^ k := Nat.and_le_right
  have h2 : (b &&& 2 ^ k) / 2 ^ k ≤ 2 ^ k / 2 ^ k := Nat.div_le_div_right h1
  rw [Nat.div_self (Nat.pos_pow_of_pos k (by norm_num))] at h2
  omega

lemma fromU8_button (r : Nat) (h : r < 2) :
    ButtonState.fromU8 r = .ok (bitButton r) := by
  unfold ButtonState.fromU8 bitButton
  interval_cases r <;> simp

lemma fromU8_plugged (r : Nat) (h : r < 2) :
    PluggedState.fromU8 r = .ok (bitPlugged r) := by
  unfold PluggedState.fromU8 bitPlugged
  interval_cases r <;> simp

lemma fromU8_muted (r : Nat) (h : r < 2) :
    MutedState.fromU8 r = .ok (bitMuted r) := by
  unfold MutedState.fromU8 bitMuted
  interval_cases r <;> simp

lemma button_bit (b m k : Nat) (hm : m = 2 ^ k) (hk : k < 8) :
    ButtonState.fromU8 (maskShift b m) = .ok (bitButton (maskShift b m)) :=
  fromU8_button _ (maskShift_bit_lt_two b m k hm hk)

lemma plugged_bit (b m k : Nat) (hm : m = 2 ^ k) (hk : k < 8) :
    PluggedState.fromU8 (maskShift b m) = .ok (bitPlugged (maskShift b m)) :=
  fromU8_plugged _ (maskShift_bit_lt_two b m k hm hk)

lemma muted_bit (b m k : Nat) (hm : m = 2 ^ k) (hk : k < 8) :
    MutedState.fromU8 (maskShift b m) = .ok (bitMuted (maskShift b m)) :=
  fromU8_muted _ (maskShift_bit_lt_two b m k hm hk)

lemma decodeSticks_eq (v : RawInputReportUSB) :
    decodeSticks v = .ok (sticksPure v) := by
  simp only [decodeSticks, sticksPure,
    button_bit _ 0x40 6 (by norm_num) (by norm_num),
    button_bit _ 0x80 7 (by norm_num) (by norm_num),
    bind_ok_eq, pure_eq_ok]

lemma decodeActionButtons_eq (v : RawInputReportUSB) :
    decodeActionButtons v = .ok (actionPure v) := by
  simp only [decodeActionButtons, actionPure,
    button_bit _ 0x10 4 (by norm_num) (by norm_num),
    button_bit _ 0x20 5 (by norm_num) (by norm_num),
    button_bit _ 0x40 6 (by norm_num) (by norm_num),
    button_bit _ 0x80 7 (by norm_num) (by norm_num),
    bind_ok_eq, pure_eq_ok]

lemma decodeMenus_eq (v : RawInputReportUSB) :
    decodeMenus v = .ok (menusPure v) := by
  simp only [decodeMenus, menusPure,
    button_bit _ 0x10 4 (by norm_num) (by norm_num),
    button_bit _ 0x20 5 (by norm_num) (by norm_num),
    button_bit _ 0x01 0 (by norm_num) (by norm_num),
    button_bit _ 0x04 2 (by norm_num) (by norm_num),
    bind_ok_eq, pure_eq_ok]

lemma decodeTouchpad_eq (v : RawInputReportUSB) :
    decodeTouchpad v = .ok (touchpadPure v) := by
  simp only [decodeTouchpad, touchpadPure,
    button_bit _ 0x02 1 (by norm_num) (by norm_num),
    bind_ok_eq, pure_eq_ok]

lemma decodeFrontTriggers_eq (v : RawInputReportUSB) :
    decodeFrontTriggers v = .ok (frontPure v) := by
  simp only [decodeFrontTriggers, frontPure,
    button_bit _ 0x01 0 (by norm_num) (by norm_num),
    button_bit _ 0x02 1 (by norm_num) (by norm_num),
    bind_ok_eq, pure_eq_ok]

lemma decodePlugged_eq (v : RawInputReportUSB) :
    decodePlugged v = .ok (pluggedPure v) := by
  simp only [decodePlugged, pluggedPure,
    plugged_bit _ 0x01 0 (by norm_num) (by norm_num),
    plugged_bit _ 0x02 1 (by norm_num) (by norm_num),
    plugged_bit _ 0x08 3 (by norm_num) (by norm_num),
    plugged_bit _ 0x10 4 (by norm_num) (by norm_num),
    muted_bit _ 0x04 2 (by norm_num) (by norm_num),
    bind_ok_eq, pure_eq_ok]

lemma decodeBody_eq (v : RawInputReportUSB) :
    decodeBody v =
      decodeDPad v >>= fun directional_pad =>
      decodeBackTriggers v >>= fun back_triggers =>
      decodePower v >>= fun power =>
      Except.ok
        { sticks := sticksPure v, directional_pad := directional_pad,
          action_buttons := actionPure v, menus := menusPure v,
          touchpad := touchpadPure v, front_triggers := frontPure v,
          back_triggers := back_triggers,
          angular_velocity := decodeAngularVelocity v,
          acceleration := decodeAcceleration v, plugged := pluggedPure v,
          temperature := TemperatureState.Celsius (i8FromNeBytes (v 32)),
          power := power } := by
  simp only [decodeBody, decodeSticks_eq, decodeActionButtons_eq,
    decodeMenus_eq, decodeTouchpad_eq, decodeFrontTriggers_eq,
    decodePlugged_eq, bind_ok_eq, pure_eq_ok]

lemma decodeDPad_ok (v : RawInputReportUSB)
    (h : maskShift (v 8) 0x0F < 9) : ∃ d, decodeDPad v = .ok d := by
  unfold decodeDPad DPadDirection.fromU8
  rw [if_pos h]
  set r := maskShift (v 8) 0x0F with hr
  interval_cases r <;> exact ⟨_, rfl⟩

lemma powerState_ok (r : Nat)
    (h : r = 0x00 ∨ r = 0x01 ∨ r = 0x02 ∨ r = 0x0A ∨ r = 0x0B ∨ r = 0x0F) :
    ∃ p, PowerState.fromU8 r = .ok p := by
  rcases h with h | h | h | h | h | h <;> subst h <;> exact ⟨_, rfl⟩

lemma decodePower_ok (v : RawInputReportUSB)
    (h : maskShift (v 53) 0xF0 = 0x00 ∨ maskShift (v 53) 0xF0 = 0x01 ∨
      maskShift (v 53) 0xF0 = 0x02 ∨ maskShift (v 53) 0xF0 = 0x0A ∨
      maskShift (v 53) 0xF0 = 0x0B ∨ maskShift (v 53) 0xF0 = 0x0F) :
    ∃ p, decodePower v = .ok p := by
  obtain ⟨p, hp⟩ := powerState_ok _ h
  have heq : decodePower v =
      .ok { state := p, percent := maskShift (v 53) 0x0F } := by
    simp only [decodePower, hp, bind_ok_eq, pure_eq_ok]
  exact ⟨_, heq⟩

lemma effect_ok (r : Nat) (h : r < 4) :
    BackTriggerEffect.fromU8 r = .ok (effectPure r) := by
  unfold BackTriggerEffect.fromU8 effectPure
  interval_cases r <;> simp

lemma status_ok (s r : Nat) (hr : r < 4) (hs : statusInDomain s r) :
    ∃ st, BackTriggerStatus.fromRaw s (effectPure r) = .ok st := by
  obtain ⟨h3, hf, hv⟩ := hs
  unfold BackTriggerStatus.fromRaw effectPure
  interval_cases r
  · rw [if_pos h3]; exact ⟨_, rfl⟩
  · have h2 : s < 2 := hf rfl
    rw [if_pos h3]; interval_cases s <;> exact ⟨_, rfl⟩
  · rw [if_pos h3]; interval_cases s <;> exact ⟨_, rfl⟩
  · have h2 : s < 2 := hv rfl
    rw [if_pos h3]; interval_cases s <;> exact ⟨_, rfl⟩

lemma decodeBackTriggers_ok (v : RawInputReportUSB)
    (hle : maskShift (v 48) 0xF0 < 4) (hre : maskShift (v 48) 0x0F < 4)
    (hls : statusInDomain (maskShift (v 43) 0xF0) (maskShift (v 48) 0xF0))
    (hrs : statusInDomain (maskShift (v 42) 0xF0) (maskShift (v 48) 0x0F)) :
    ∃ g, decodeBackTriggers v = .ok g := by
  obtain ⟨stl, hstl⟩ := status_ok _ _ hle hls
  obtain ⟨str, hstr⟩ := status_ok _ _ hre hrs
  have heq : decodeBackTriggers v = .ok
      { l2 := { state := bitButton (maskShift (v 9) 0x04),
                axis := Axis.mk (v 5),
                effect := effectPure (maskShift (v 48) 0xF0), status := stl,
                stop := BackTriggerStop.mk (maskShift (v 43) 0xF0) },
        r2 := { state := bitButton (maskShift (v 9) 0x08),
                axis := Axis.mk (v 6),
                effect := effectPure (maskShift (v 48) 0x0F), status := str,
                stop := BackTriggerStop.mk (maskShift (v 42) 0xF0) } } := by
    simp only [decodeBackTriggers,
      button_bit _ 0x04 2 (by norm_num) (by norm_num),
      button_bit _ 0x08 3 (by norm_num) (by norm_num),
      effect_ok _ hle, effect_ok _ hre, bind_ok_eq, hstl, hstr, pure_eq_ok]
  exact ⟨_, heq⟩

lemma decodeBody_ok_of_inDomain (v : RawInputReportUSB) (h : InDomain v) :
    ∃ s, decodeBody v = .ok s := by
  obtain ⟨-, hdp, hpw, hle, hre, hls, hrs⟩ := h
  obtain ⟨d, hd⟩ := decodeDPad_ok v hdp
  obtain ⟨g, hg⟩ := decodeBackTriggers_ok v hle hre hls hrs
  obtain ⟨p, hp⟩ := decodePower_ok v hpw
  exact ⟨_, by rw [decodeBody_eq, hd, bind_ok_eq, hg, bind_ok_eq, hp,
    bind_ok_eq]⟩

lemma bind_error_eq {ε α β : Type} (e : ε) (f : α → Except ε β) :
    (Bind.bind (Except.error e) f : Except ε β) = .error e := rfl

/-- Any successfully decoded state agrees with the pure per-block values on
every block whose conversions cannot fail. -/
lemma decode_ok_fields (v : RawInputReportUSB) (s : DualSenseState)
    (h : decode v = .ok s) :
    s = { sticks := sticksPure v, directional_pad := s.directional_pad,
          action_buttons := actionPure v, menus := menusPure v,
          touchpad := touchpadPure v, front_triggers := frontPure v,
          back_triggers := s.back_triggers,
          angular_velocity := decodeAngularVelocity v,
          acceleration := decodeAcceleration v, plugged := pluggedPure v,
          temperature := TemperatureState.Celsius (i8FromNeBytes (v 32)),
          power := s.power } := by
  unfold decode at h
  split at h
  · rw [decodeBody_eq] at h
    cases hd : decodeDPad v with
    | error e => rw [hd, bind_error_eq] at h; cases h
    | ok d =>
      rw [hd, bind_ok_eq] at h
      cases hg : decodeBackTriggers v with
      | error e => rw [hg, bind_error_eq] at h; cases h
      | ok g =>
        rw [hg, bind_ok_eq] at h
        cases hp : decodePower v with
        | error e => rw [hp, bind_error_eq] at h; cases h
        | ok p =>
          rw [hp, bind_ok_eq] at h
          cases h
          rfl
  · cases h

lemma maskShift_top_bit (b : Nat) : maskShift b 0x80 = (b.testBit 7).toNat := by
  unfold maskShift
  rw [show u8TrailingZeros 0x80 = 7 from by decide,
    show (0x80 : Nat) = 2 ^ 7 from by norm_num, Nat.and_two_pow,
    Nat.shiftRight_eq_div_pow]
  exact Nat.mul_div_cancel _ (by norm_num)

lemma top_bit_touching (b : Nat) :
    ((maskShift b 0x80 == 0) = true ↔ b.testBit 7 = false) := by
  rw [maskShift_top_bit]
  simp [beq_iff_eq, Bool.toNat_eq_zero]

/-- C1 counterexample: the Rust decoder panics (it does not return a
catchable error value) on a 64-byte buffer whose d-pad nibble carries the
out-of-domain raw code 9: the `assert!(value < 9)` in
`From<u8> for DPadDirection` fails. -/
theorem decode_panics_on_dpad_nine :
    decode dpad9Buf =
      .error (Panic.assertFailed "Out of range for DPadDirection") := by decide

/-- C1 (amended): for every 64-byte buffer whose header byte is 0 or 1 and
whose closed-enumeration raw codes (d-pad nibble, power nibble, trigger
effect nibbles, trigger status nibbles) are inside their domains, decode
returns a fully-populated state; on out-of-domain codes the decoder panics
instead of returning an error value. -/
theorem decode_ok_of_inDomain (v : RawInputReportUSB) (h : InDomain v) :
    ∃ s, decode v = .ok s := by
  obtain ⟨s, hs⟩ := decodeBody_ok_of_inDomain v h
  refine ⟨s, ?_⟩
  unfold decode
  rw [if_pos h.1]
  exact hs

/-- C1 witness: the all-zero buffer is in-domain and decodes successfully. -/
theorem decode_ok_of_inDomain_witness :
    InDomain zeroBuf ∧ ∃ s, decode zeroBuf = .ok s :=
  ⟨by decide, decode_ok_of_inDomain zeroBuf (by decide)⟩

/-- C2 counterexample: a buffer with header byte 2 makes the decoder fail
by a panic of the report-type `assert!`, not by an `UnsupportedReportType`
error value (no such error type exists in the crate). -/
theorem decode_header_two_is_assert_panic :
    decode headerBuf =
      .error (Panic.assertFailed "Report must be either of type 1 or empty") := by
  decide

/-- C2 (amended): for every 64-byte buffer whose byte 0 is neither 0 nor 1,
decode aborts with the report-type assertion panic (not a catchable
`UnsupportedReportType` value); for byte 0 in `{0, 1}` the header
validation passes and the decode body runs. -/
theorem decode_header_validation (v : RawInputReportUSB) :
    (v 0 ≠ 0 → v 0 ≠ 1 →
      decode v =
        .error (Panic.assertFailed "Report must be either of type 1 or empty")) ∧
    ((v 0 = 0 ∨ v 0 = 1) → decode v = decodeBody v) := by
  constructor
  · intro h0 h1
    unfold decode
    rw [if_neg]
    rintro (h | h)
    · exact h1 h
    · exact h0 h
  · intro h
    unfold decode
    rcases h with h | h
    · rw [if_pos (Or.inr h)]
    · rw [if_pos (Or.inl h)]

/-- C2 witness: header 2 panics; the all-zero header passes validation. -/
theorem decode_header_validation_witness :
    headerBuf 0 ≠ 0 ∧ headerBuf 0 ≠ 1 ∧
    decode headerBuf =
      .error (Panic.assertFailed "Report must be either of type 1 or empty") ∧
    (zeroBuf 0 = 0 ∨ zeroBuf 0 = 1) ∧ decode zeroBuf = decodeBody zeroBuf :=
  ⟨by decide, by decide,
   (decode_header_validation headerBuf).1 (by decide) (by decide),
   by decide, (decode_header_validation zeroBuf).2 (by decide)⟩

/-- C3 counterexample: a 10-byte read makes `update` fail by the
`assert!(bytes == 64, ...)` panic, not by a `WrongSize` error value (no
such error type exists in the crate). -/
theorem update_ten_bytes_assert_panic :
    update 10 zeroBuf default =
      .error
        (Panic.assertFailed "Only one type of report is currently implemented") := by
  decide

/-- C3 (amended): a zero-byte read returns successfully without decoding;
any other read length different from 64 makes `update` panic on the size
assertion rather than return a `WrongSize` error value. -/
theorem update_size_validation (bytes : Nat) (buffer : RawInputReportUSB)
    (st : DualSenseState) :
    (bytes = 0 → update bytes buffer st = .ok (st, bytes)) ∧
    (bytes ≠ 0 → bytes ≠ 64 →
      update bytes buffer st =
        .error
          (Panic.assertFailed "Only one type of report is currently implemented")) := by
  constructor
  · intro h
    unfold update
    rw [if_pos h]
  · intro h0 h64
    unfold update
    rw [if_neg h0, if_neg h64]

/-- C3 witness: read lengths 0 and 7 on the all-zero buffer. -/
theorem update_size_validation_witness :
    update 0 zeroBuf default = .ok (default, 0) ∧
    (7 : Nat) ≠ 0 ∧ (7 : Nat) ≠ 64 ∧
    update 7 zeroBuf default =
      .error
        (Panic.assertFailed "Only one type of report is currently implemented") :=
  ⟨(update_size_validation 0 zeroBuf default).1 rfl, by decide, by decide,
   (update_size_validation 7 zeroBuf default).2 (by decide) (by decide)⟩

/-- C4 counterexample: with effect `Off` and status raw 5 the joint
conversion does not yield `FeedbackNoLoad`: the leading
`assert!(value < 3)` fires before the `Off` arm is reached. -/
theorem status_off_raw_five_panics :
    BackTriggerStatus.fromRaw 5 BackTriggerEffect.Off =
      .error (Panic.assertFailed "Out of range for BackTriggerStatus") := by
  decide

/-- C4 (amended): Weapon with status raw 2 yields `WeaponFired`; Off yields
`FeedbackNoLoad` only for status raw below 3 and panics on the status-range
assertion for raw 3..15; Vibration with status raw 2 panics via a reached
`unreachable!()` arm, not an `InvalidEnumerationCode` error value. -/
theorem backTriggerStatus_joint_table (s : Nat) :
    (BackTriggerStatus.fromRaw 2 BackTriggerEffect.Weapon =
      .ok BackTriggerStatus.WeaponFired) ∧
    (s < 3 → BackTriggerStatus.fromRaw s BackTriggerEffect.Off =
      .ok BackTriggerStatus.FeedbackNoLoad) ∧
    (3 ≤ s → BackTriggerStatus.fromRaw s BackTriggerEffect.Off =
      .error (Panic.assertFailed "Out of range for BackTriggerStatus")) ∧
    (BackTriggerStatus.fromRaw 2 BackTriggerEffect.Vibration =
      .error Panic.unreachableCode) := by
  refine ⟨by decide, ?_, ?_, by decide⟩
  · intro h
    unfold BackTriggerStatus.fromRaw
    rw [if_pos h]
  · intro h
    unfold BackTriggerStatus.fromRaw
    rw [if_neg (by omega)]

/-- C4 witness: status raws 1 and 9 with effect `Off`. -/
theorem backTriggerStatus_joint_table_witness :
    (1 : Nat) < 3 ∧
    BackTriggerStatus.fromRaw 1 BackTriggerEffect.Off =
      .ok BackTriggerStatus.FeedbackNoLoad ∧
    (3 : Nat) ≤ 9 ∧
    BackTriggerStatus.fromRaw 9 BackTriggerEffect.Off =
      .error (Panic.assertFailed "Out of range for BackTriggerStatus") :=
  ⟨by decide, (backTriggerStatus_joint_table 1).2.1 (by decide), by decide,
   (backTriggerStatus_joint_table 9).2.2.1 (by decide)⟩

/-- C5: the effect conversion maps 0..3 to the four documented effects, and
for every raw code 4..15 the `assert!(value < 16)` passes and the
`unreachable!()` catch-all arm is reached, so the conversion panics instead
of failing with an explicit error. -/
theorem backTriggerEffect_mapping (v : Nat) :
    (BackTriggerEffect.fromU8 0 = .ok BackTriggerEffect.Off) ∧
    (BackTriggerEffect.fromU8 1 = .ok BackTriggerEffect.Feedback) ∧
    (BackTriggerEffect.fromU8 2 = .ok BackTriggerEffect.Weapon) ∧
    (BackTriggerEffect.fromU8 3 = .ok BackTriggerEffect.Vibration) ∧
    (4 ≤ v → v < 16 →
      BackTriggerEffect.fromU8 v = .error Panic.unreachableCode) := by
  refine ⟨by decide, by decide, by decide, by decide, ?_⟩
  intro h4 h16
  unfold BackTriggerEffect.fromU8
  rw [if_pos h16]
  interval_cases v <;> rfl

/-- C5 witness: the reserved raw code 4 reaches the `unreachable!()` arm. -/
theorem backTriggerEffect_mapping_witness :
    (4 : Nat) ≤ 4 ∧ (4 : Nat) < 16 ∧
    BackTriggerEffect.fromU8 4 = .error Panic.unreachableCode :=
  ⟨by decide, by decide,
   (backTriggerEffect_mapping 4).2.2.2.2 (by decide) (by decide)⟩

/-- C6 counterexample: the all-zero buffer decodes with directional pad
`North` (raw nibble 0), not the neutral value `None` (raw 8). -/
theorem zero_buffer_dpad_is_north :
    (decode zeroBuf).toOption.map DualSenseState.directional_pad =
      some DPadDirection.North ∧
    DPadDirection.North ≠ DPadDirection.None := by decide

/-- C6 (amended): the all-zero 64-byte buffer (header 0) decodes
successfully to a state where every button is Released, every
plugged-device field is Unplugged, the directional pad is North (raw 0),
power is Discharging at 0 percent, and both stick positions are (0, 0). -/
theorem zero_buffer_decode :
    (decode zeroBuf).toOption.map (fun s => s.directional_pad) =
      some DPadDirection.North ∧
    (decode zeroBuf).toOption.map (fun s => s.sticks.left) =
      some { state := ButtonState.Released, position := { x := 0, y := 0 } } ∧
    (decode zeroBuf).toOption.map (fun s => s.sticks.right) =
      some { state := ButtonState.Released, position := { x := 0, y := 0 } } ∧
    (decode zeroBuf).toOption.map (fun s => s.action_buttons) =
      some { square := ButtonState.Released, cross := ButtonState.Released,
             circle := ButtonState.Released,
             triangle := ButtonState.Released } ∧
    (decode zeroBuf).toOption.map (fun s => s.menus) =
      some { create := ButtonState.Released, options := ButtonState.Released,
             home := ButtonState.Released, mute := ButtonState.Released } ∧
    (decode zeroBuf).toOption.map (fun s => s.touchpad.state) =
      some ButtonState.Released ∧
    (decode zeroBuf).toOption.map (fun s => s.front_triggers) =
      some { l1 := ButtonState.Released, r1 := ButtonState.Released } ∧
    (decode zeroBuf).toOption.map (fun s => s.back_triggers.l2.state) =
      some ButtonState.Released ∧
    (decode zeroBuf).toOption.map (fun s => s.back_triggers.r2.state) =
      some ButtonState.Released ∧
    (decode zeroBuf).toOption.map (fun s => s.plugged) =
      some { headphone := PluggedState.Unplugged,
             microphone := { state := PluggedState.Unplugged,
                             muted := MutedState.Unmuted, external := false },
             usb := { data := PluggedState.Unplugged,
                      power := PluggedState.Unplugged },
             haptic_low_pass_filter := PluggedState.Unplugged } ∧
    (decode zeroBuf).toOption.map (fun s => s.power) =
      some { state := PowerState.Discharging, percent := 0 } := by decide

/-- C7 counterexample: the d-pad conversion at raw code 9 fails by the
`assert!(value < 9)` panic, not by an explicit error value. -/
theorem dpad_nine_is_assert_panic :
    DPadDirection.fromU8 9 =
      .error (Panic.assertFailed "Out of range for DPadDirection") := by decide

/-- C7 (amended): raw codes 0..7 map to the eight compass directions
clockwise from North, 8 maps to the neutral value, and every raw code 9 or
greater panics on the range assertion rather than returning an explicit
error value. -/
theorem dpad_mapping (v : Nat) :
    (DPadDirection.fromU8 0 = .ok DPadDirection.North) ∧
    (DPadDirection.fromU8 1 = .ok DPadDirection.NorthEast) ∧
    (DPadDirection.fromU8 2 = .ok DPadDirection.East) ∧
    (DPadDirection.fromU8 3 = .ok DPadDirection.SouthEast) ∧
    (DPadDirection.fromU8 4 = .ok DPadDirection.South) ∧
    (DPadDirection.fromU8 5 = .ok DPadDirection.SouthWest) ∧
    (DPadDirection.fromU8 6 = .ok DPadDirection.West) ∧
    (DPadDirection.fromU8 7 = .ok DPadDirection.NorthWest) ∧
    (DPadDirection.fromU8 8 = .ok DPadDirection.None) ∧
    (9 ≤ v → DPadDirection.fromU8 v =
      .error (Panic.assertFailed "Out of range for DPadDirection")) := by
  refine ⟨by decide, by decide, by decide, by decide, by decide, by decide,
    by decide, by decide, by decide, ?_⟩
  intro h
  unfold DPadDirection.fromU8
  rw [if_neg (by omega)]

/-- C7 witness: raw code 9 trips the range assertion. -/
theorem dpad_mapping_witness :
    (9 : Nat) ≤ 9 ∧
    DPadDirection.fromU8 9 =
      .error (Panic.assertFailed "Out of range for DPadDirection") :=
  ⟨by decide, (dpad_mapping 9).2.2.2.2.2.2.2.2.2 (by decide)⟩

/-- C8: in any successful decode, bytes `[0x10, 0x00]` at the gyroscope-X
offset (bytes 16-17) give angular-velocity X = 16 and bytes `[0xFF, 0xFF]`
give angular-velocity X = -1 (little-endian signed 16-bit assembly). -/
theorem gyro_x_little_endian (v : RawInputReportUSB) (s : DualSenseState)
    (h : decode v = .ok s) :
    (v 16 = 0x10 → v 17 = 0x00 → s.angular_velocity.x = 16) ∧
    (v 16 = 0xFF → v 17 = 0xFF → s.angular_velocity.x = -1) := by
  have hf := decode_ok_fields v s h
  constructor <;> intro h16 h17
  · rw [hf]
    show (decodeAngularVelocity v).x = 16
    simp only [decodeAngularVelocity]
    rw [h16, h17]
    decide
  · rw [hf]
    show (decodeAngularVelocity v).x = -1
    simp only [decodeAngularVelocity]
    rw [h16, h17]
    decide

/-- C8 witness: two concrete buffers differing only at bytes 16-17. -/
theorem gyro_x_little_endian_witness :
    decode gyroPosBuf = .ok (decodeOr gyroPosBuf default) ∧
    gyroPosBuf 16 = 0x10 ∧ gyroPosBuf 17 = 0x00 ∧
    (decodeOr gyroPosBuf default).angular_velocity.x = 16 ∧
    decode gyroNegBuf = .ok (decodeOr gyroNegBuf default) ∧
    gyroNegBuf 16 = 0xFF ∧ gyroNegBuf 17 = 0xFF ∧
    (decodeOr gyroNegBuf default).angular_velocity.x = -1 :=
  ⟨by decide, by decide, by decide,
   (gyro_x_little_endian gyroPosBuf (decodeOr gyroPosBuf default)
     (by decide)).1 (by decide) (by decide),
   by decide, by decide, by decide,
   (gyro_x_little_endian gyroNegBuf (decodeOr gyroNegBuf default)
     (by decide)).2 (by decide) (by decide)⟩

/-- C9 counterexample: the bitfield primitive is not total: with mask 0 the
shift amount is `trailing_zeros(0) = 8`, the full width of the `u8`
operand, so the extraction overflows (panics under debug assertions)
instead of returning a value. -/
theorem maskShiftChecked_zero_mask_panics :
    maskShiftChecked 0xAB 0 = .error Panic.shiftOverflow := by decide

/-- C9 (amended): for every byte and every nonzero 8-bit mask the
extraction primitive returns `(byte &&& mask) >>> trailing_zeros(mask)`
without any failure; only mask 0 makes the shift overflow. -/
theorem maskShiftChecked_ok_of_nonzero (b m : Nat) (hm : m ≠ 0)
    (hlt : m < 256) :
    maskShiftChecked b m = .ok ((b &&& m) >>> u8TrailingZeros m) := by
  have htz : u8TrailingZeros m < 8 := by
    unfold u8TrailingZeros
    split_ifs <;> omega
  unfold maskShiftChecked
  rw [if_pos htz]
  rfl

/-- C9 witness: a concrete byte and nonzero mask. -/
theorem maskShiftChecked_ok_of_nonzero_witness :
    (0x30 : Nat) ≠ 0 ∧ (0x30 : Nat) < 256 ∧
    maskShiftChecked 0xAB 0x30 =
      .ok ((0xAB &&& 0x30) >>> u8TrailingZeros 0x30) :=
  ⟨by decide, by decide,
   maskShiftChecked_ok_of_nonzero 0xAB 0x30 (by decide) (by decide)⟩

/-- C10: in any successful decode, each finger record's touching flag is
true exactly when the most significant bit of the finger's first byte
(byte 33 for the first finger, byte 37 for the second) is zero. -/
theorem touchpad_touching_bit_inverted (v : RawInputReportUSB)
    (s : DualSenseState) (h : decode v = .ok s) :
    (s.touchpad.finger.1.is_touching = true ↔ (v 33).testBit 7 = false) ∧
    (s.touchpad.finger.2.is_touching = true ↔ (v 37).testBit 7 = false) := by
  have hf := decode_ok_fields v s h
  rw [hf]
  exact ⟨top_bit_touching (v 33), top_bit_touching (v 37)⟩

/-- C10 witness: the all-zero buffer has both top bits clear and both
touching flags set. -/
theorem touchpad_touching_bit_inverted_witness :
    decode zeroBuf = .ok (decodeOr zeroBuf default) ∧
    ((decodeOr zeroBuf default).touchpad.finger.1.is_touching = true ↔
      (zeroBuf 33).testBit 7 = false) ∧
    ((decodeOr zeroBuf default).touchpad.finger.2.is_touching = true ↔
      (zeroBuf 37).testBit 7 = false) :=
  ⟨by decide,
   (touchpad_touching_bit_inverted zeroBuf (decodeOr zeroBuf default)
     (by decide)).1,
   (touchpad_touching_bit_inverted zeroBuf (decodeOr zeroBuf default)
     (by decide)).2⟩
